import Mathlib

/-!
Promotions admin page controller (`service/static/js/rest_api.js`).

A shallow embedding of the jQuery controller that binds the Promotion form to
the REST API, followed by theorems about it.

Modelling conventions.

* The DOM is the only state of the program.  It is modelled by `State`: the nine
  form fields (each a text cell holding a string), the content of the
  `#flash_message` container and the content of the `#search_results`
  container (both as the markup that was appended to them).
* A JavaScript value that can occur as a field of a parsed JSON response is a
  `JSVal`; a missing property reads as `undefined`.  Numbers are the
  integer-valued ones: `num n` is the Number that the integer `n` denotes, the
  double nearest to `n`, and it is printed as Number-to-string prints it.
* A form field keeps the string that `.val` hands to it; what an input element
  of a particular type would strip from a value is not part of the model.
* The response handed to a `done` callback is a parsed JSON object (`JSObj`),
  for Search a list of them.
* A click handler is a function from the state to the new state together with
  the `$.ajax` settings it submits; the `done` and `fail` callbacks are
  separate functions of the state and the response.
* A callback that dereferences `res.responseJSON.message` when `responseJSON`
  is `undefined` throws a `TypeError`; `Outcome.threw` records that, together
  with the state reached before the throw.
-/

namespace Promotions

/-! ## JavaScript values -/

/-- A scalar JavaScript value as delivered in a field of a JSON response. -/
inductive JSVal where
  | undefined
  | null
  | bool (b : Bool)
  | num (n : Int)
  | str (s : String)
  deriving DecidableEq, Repr

/-- A parsed JSON object: property names with their values. -/
abbrev JSObj := List (String × JSVal)

/-- Property read `o.k`; a property that is not there reads as `undefined`. -/
def JSObj.get (o : JSObj) (k : String) : JSVal :=
  match o.lookup k with
  | some v => v
  | none => JSVal.undefined

/-- The number of halvings that bring `a` below `2^53`: the binary exponent of
the unit in the last place of the double nearest to `a`. -/
def excessBits : Nat → Nat → Nat
  | 0, _ => 0
  | fuel + 1, a => if a < 2 ^ 53 then 0 else 1 + excessBits fuel (a / 2)

/-- An integer-valued IEEE double at or above `2^53`: its value, the distance to
the next double below and above, and whether its significand is even. -/
structure DoubleOfNat where
  value : Nat
  below : Nat
  above : Nat
  even : Bool
  deriving DecidableEq, Repr

/-- The double nearest to the natural number `a` (round to nearest, ties to
even), for `2^53 ≤ a < 2^1024`. -/
def roundToDouble (a : Nat) : DoubleOfNat :=
  let e := excessBits 1024 a
  let q := a / 2 ^ e
  let r := a % 2 ^ e
  let half := 2 ^ e / 2
  let q1 := if r > half ∨ (r = half ∧ q % 2 = 1) then q + 1 else q
  { value := q1 * 2 ^ e
    below := if q1 = 2 ^ 52 then 2 ^ e / 2 else 2 ^ e
    above := if q1 = 2 ^ 53 then 2 ^ e * 2 else 2 ^ e
    even := q1 % 2 == 0 }

/-- Whether the natural number `v` rounds to the double `d`: it lies within
half a unit in the last place, the end points included when the significand of
`d` is even. -/
def DoubleOfNat.roundsHere (d : DoubleOfNat) (v : Nat) : Bool :=
  if d.even then 2 * d.value - d.below ≤ 2 * v && 2 * v ≤ 2 * d.value + d.above
  else 2 * d.value - d.below < 2 * v && 2 * v < 2 * d.value + d.above

/-- The decimal with the fewest significant digits that rounds to `d`, and among
those the one nearest to `d` (the even one on a tie): the multiple of the
largest power of ten, at most `10^j`, that rounds to `d`. -/
def shortestDecimal (d : DoubleOfNat) : Nat → Nat
  | 0 => d.value
  | j + 1 =>
    let p := 10 ^ (j + 1)
    let lower := d.value / p * p
    let upper := lower + p
    match d.roundsHere lower, d.roundsHere upper with
    | true, true =>
      if d.value - lower < upper - d.value then lower
      else if upper - d.value < d.value - lower then upper
      else if (lower / p) % 2 = 0 then lower else upper
    | true, false => lower
    | false, true => upper
    | false, false => shortestDecimal d j

/-- The text of the decimal `v`: all its digits below `10^21`, otherwise the
significant digits with a point after the first one and the exponent. -/
def formatDigits (v : Nat) : String :=
  if v < 10 ^ 21 then toString v
  else
    let digits := Nat.toDigits 10 v
    let significant := (digits.reverse.dropWhile (fun c => c = '0')).reverse
    match significant with
    | [] => "0"
    | [c] => String.mk [c] ++ "e+" ++ toString (digits.length - 1)
    | c :: rest => String.mk (c :: '.' :: rest) ++ "e+" ++ toString (digits.length - 1)

/-- The bound `2^1024` from which on a magnitude rounds to `Infinity`. -/
def doubleLimit : Nat := 2 ^ 256 * 2 ^ 256 * 2 ^ 256 * 2 ^ 256

/-- Number-to-string of the Number that the integer `n` denotes, which is the
double nearest to `n`: below `2^53` the decimal digits of `n`, from there on the
shortest decimal that rounds to the same double, in exponent form from `10^21`
on, and `Infinity` beyond the range of doubles. -/
def numberToString (n : Int) : String :=
  let a := n.natAbs
  let sign := if n < 0 then "-" else ""
  if a < 2 ^ 53 then sign ++ toString a
  else if a ≥ doubleLimit then sign ++ "Infinity"
  else
    let d := roundToDouble a
    if d.value ≥ doubleLimit then sign ++ "Infinity"
    else sign ++ formatDigits (shortestDecimal d (Nat.toDigits 10 d.value).length)

/-- ToString, as applied by a template literal `${v}`. -/
def JSVal.toStr : JSVal → String
  | .undefined => "undefined"
  | .null => "null"
  | .bool true => "true"
  | .bool false => "false"
  | .num n => numberToString n
  | .str s => s

/-- ToBoolean, as applied by `v ? a : b` and by `if (v)`. -/
def JSVal.truthy : JSVal → Bool
  | .undefined => false
  | .null => false
  | .bool b => b
  | .num n => n != 0
  | .str s => s != ""

/-- The mathematical value of a numeric string before rounding to a Number:
`finite neg m e` stands for `(-1)^neg * m * 10^e`. -/
inductive NumericValue where
  | nan
  | infinity (neg : Bool)
  | finite (neg : Bool) (m : Nat) (e : Int)
  deriving DecidableEq, Repr

/-- StrWhiteSpaceChar: WhiteSpace (TAB, VT, FF, ZWNBSP, the Zs category) and
LineTerminator (LF, CR, LS, PS). -/
def isStrWhiteSpaceChar (c : Char) : Bool :=
  [0x9, 0xA, 0xB, 0xC, 0xD, 0x20, 0xA0, 0x1680, 0x2028, 0x2029, 0x202F, 0x205F,
    0x3000, 0xFEFF].contains c.toNat || (0x2000 ≤ c.toNat && c.toNat ≤ 0x200A)

/-- Strip leading and trailing StrWhiteSpaceChar. -/
def trimWhiteSpace (cs : List Char) : List Char :=
  ((cs.dropWhile isStrWhiteSpaceChar).reverse.dropWhile isStrWhiteSpaceChar).reverse

/-- Value of one digit character (decimal or hexadecimal). -/
def digitValue (c : Char) : Option Nat :=
  if 48 ≤ c.toNat ∧ c.toNat ≤ 57 then some (c.toNat - 48)
  else if 97 ≤ c.toNat ∧ c.toNat ≤ 102 then some (c.toNat - 87)
  else if 65 ≤ c.toNat ∧ c.toNat ≤ 70 then some (c.toNat - 55)
  else none

/-- Value of a run of digits in the given base, continuing from `acc`;
`none` when a character is not a digit of that base. -/
def digitsValueFrom (base : Nat) : List Char → Nat → Option Nat
  | [], acc => some acc
  | c :: cs, acc =>
    match digitValue c with
    | some d => if d < base then digitsValueFrom base cs (acc * base + d) else none
    | none => none

/-- Value of a non-empty run of digits in the given base. -/
def digitsValue (base : Nat) (cs : List Char) : Option Nat :=
  match cs with
  | [] => none
  | _ => digitsValueFrom base cs 0

/-- DecimalDigit test. -/
def isDecimalDigit (c : Char) : Bool := 48 ≤ c.toNat && c.toNat ≤ 57

/-- ExponentPart (optional): nothing, or `e`/`E` followed by a SignedInteger. -/
def exponentPart : List Char → Option Int
  | [] => some 0
  | c :: cs =>
    if c = 'e' ∨ c = 'E' then
      match cs with
      | '+' :: ds => (digitsValue 10 ds).map Int.ofNat
      | '-' :: ds => (digitsValue 10 ds).map (fun n => - Int.ofNat n)
      | ds => (digitsValue 10 ds).map Int.ofNat
    else none

/-- StrUnsignedDecimalLiteral: `Infinity`, `d+ . d* exp?`, `. d+ exp?`, `d+ exp?`. -/
def strUnsignedDecimalLiteral (neg : Bool) (cs : List Char) : NumericValue :=
  if cs = "Infinity".toList then NumericValue.infinity neg
  else
    let intPart := cs.takeWhile isDecimalDigit
    let rest := cs.dropWhile isDecimalDigit
    match rest with
    | '.' :: rest1 =>
      let fracPart := rest1.takeWhile isDecimalDigit
      let rest2 := rest1.dropWhile isDecimalDigit
      if intPart = [] ∧ fracPart = [] then NumericValue.nan
      else
        match digitsValueFrom 10 (intPart ++ fracPart) 0, exponentPart rest2 with
        | some m, some e => NumericValue.finite neg m (e - Int.ofNat fracPart.length)
        | _, _ => NumericValue.nan
    | _ =>
      if intPart = [] then NumericValue.nan
      else
        match digitsValueFrom 10 intPart 0, exponentPart rest with
        | some m, some e => NumericValue.finite neg m e
        | _, _ => NumericValue.nan

/-- StrNumericLiteral: a signed decimal literal or an unsigned binary, octal or
hexadecimal integer literal. -/
def strNumericLiteral : List Char → NumericValue
  | '0' :: x :: ds =>
    let nonDecimal (base : Nat) : NumericValue :=
      match digitsValue base ds with
      | some m => NumericValue.finite false m 0
      | none => NumericValue.nan
    if x = 'x' ∨ x = 'X' then nonDecimal 16
    else if x = 'o' ∨ x = 'O' then nonDecimal 8
    else if x = 'b' ∨ x = 'B' then nonDecimal 2
    else strUnsignedDecimalLiteral false ('0' :: x :: ds)
  | '+' :: cs => strUnsignedDecimalLiteral false cs
  | '-' :: cs => strUnsignedDecimalLiteral true cs
  | cs => strUnsignedDecimalLiteral false cs

/-- StringToNumber, up to the final rounding: white space is trimmed, the empty
string is `0`, everything that is not a StrNumericLiteral is `NaN`. -/
def stringToNumber (s : String) : NumericValue :=
  match trimWhiteSpace s.toList with
  | [] => NumericValue.finite false 0 0
  | cs => strNumericLiteral cs

/-- Whether the Number (IEEE double, round to nearest, ties to even) for a
mathematical value is `1`: exactly the values in `[1 - 2^-54, 1 + 2^-53]`. -/
def NumericValue.isOne : NumericValue → Bool
  | .finite false m (Int.ofNat k) => m * 10 ^ k == 1
  | .finite false m (Int.negSucc k) =>
    (2 ^ 54 - 1) * 10 ^ (k + 1) ≤ m * 2 ^ 54 && m * 2 ^ 53 ≤ (2 ^ 53 + 1) * 10 ^ (k + 1)
  | _ => false

/-- Loose equality `v == true`: the boolean is converted to the Number `1`, then
`null`/`undefined` are unequal to it, a Boolean is compared as a Number, a
Number is compared with `1`, a String is converted by StringToNumber. -/
def JSVal.looseEqTrue : JSVal → Bool
  | .undefined => false
  | .null => false
  | .bool b => b
  | .num n => n == 1
  | .str s => (stringToNumber s).isOne

/-- Lower-casing of one code point.  `A`-`Z`, U+0130 and U+212A are the only code
points whose lower case contains an ASCII character; every other code point is
kept as it is, which is exact for comparisons against ASCII literals. -/
def charToLowerCase (c : Char) : List Char :=
  if 65 ≤ c.toNat ∧ c.toNat ≤ 90 then [Char.ofNat (c.toNat + 32)]
  else if c.toNat = 0x130 then ['i', Char.ofNat 0x307]
  else if c.toNat = 0x212A then ['k']
  else [c]

/-- `String.prototype.toLowerCase`. -/
def toLowerCase (s : String) : String :=
  String.mk (s.toList.flatMap charToLowerCase)

/-! ## The DOM state -/

/-- The nine form fields, named by their element ids; each holds a string. -/
structure Form where
  promotion_id : String
  promotion_name : String
  promotion_description : String
  promotion_products_type : String
  promotion_code : String
  promotion_require_code : String
  promotion_start_date : String
  promotion_end_date : String
  promotion_is_active : String
  deriving DecidableEq, Repr

/-- The part of the document the controller reads and writes: the form, the
content of `#flash_message` and the content of `#search_results`. -/
structure State where
  form : Form
  flash_message : String
  search_results : String
  deriving DecidableEq, Repr

/-- What jQuery `.val(v)` stores in a text field: `null`/`undefined` become the
empty string, a number its decimal string, and the field keeps a string. -/
def valSet : JSVal → String
  | .undefined => ""
  | .null => ""
  | .bool true => "true"
  | .bool false => "false"
  | .num n => numberToString n
  | .str s => s

/-- What jQuery `.append(v)` adds to an emptied container: nothing for a falsy
value other than `0`, otherwise the text (or markup) of the value. -/
def appended : JSVal → String
  | .undefined => ""
  | .null => ""
  | .bool true => "true"
  | .bool false => ""
  | .num n => numberToString n
  | .str s => s

/-! ## Utility functions -/

/-- Updates the form with data from the response (lines 8-26). -/
def update_form_data (res : JSObj) (st : State) : State :=
  { st with form :=
    { promotion_id := valSet (res.get "_id")
      promotion_name := valSet (res.get "name")
      promotion_description := valSet (res.get "description")
      promotion_products_type := valSet (res.get "products_type")
      promotion_code := valSet (res.get "promotion_code")
      promotion_require_code :=
        if (res.get "require_code").looseEqTrue then valSet (JSVal.str "true")
        else valSet (JSVal.str "false")
      promotion_start_date := valSet (res.get "start_date")
      promotion_end_date := valSet (res.get "end_date")
      promotion_is_active :=
        if (res.get "is_active").looseEqTrue then valSet (JSVal.str "true")
        else valSet (JSVal.str "false") } }

/-- Clears all form fields (lines 29-39). -/
def clear_form_data (st : State) : State :=
  { st with form :=
    { promotion_id := valSet (JSVal.str "")
      promotion_name := valSet (JSVal.str "")
      promotion_description := valSet (JSVal.str "")
      promotion_products_type := valSet (JSVal.str "")
      promotion_code := valSet (JSVal.str "")
      promotion_require_code := valSet (JSVal.str "")
      promotion_start_date := valSet (JSVal.str "")
      promotion_end_date := valSet (JSVal.str "")
      promotion_is_active := valSet (JSVal.str "") } }

/-- Updates the flash message area (lines 42-45): empty it, then append. -/
def flash_message (message : JSVal) (st : State) : State :=
  let st1 := { st with flash_message := "" }
  { st1 with flash_message := st1.flash_message ++ appended message }

/-! ## Requests and responses -/

/-- The object literal `data` built by the Create and Update handlers. -/
structure Payload where
  name : String
  description : String
  products_type : String
  promotion_code : String
  require_code : Bool
  start_date : String
  end_date : String
  is_active : Bool
  deriving DecidableEq, Repr

/-- The `data` setting of a request: the empty string, or `JSON.stringify` of a
payload (kept as the payload it serialises). -/
inductive RequestData where
  | empty
  | json (p : Payload)
  deriving DecidableEq, Repr

/-- The settings object passed to `$.ajax`. -/
structure AjaxSettings where
  type : String
  url : String
  contentType : String
  data : RequestData
  deriving DecidableEq, Repr

/-- The jqXHR object handed to a `fail` callback; `responseJSON` is `undefined`
(`none`) when the response has no JSON body. -/
structure FailResponse where
  responseJSON : Option JSObj
  deriving DecidableEq, Repr

/-- How a callback ends: it returns, or it throws a `TypeError`; either way the
document is left in the given state. -/
inductive Outcome where
  | returned (st : State)
  | threw (st : State)
  deriving DecidableEq, Repr

/-- The document state a callback leaves behind. -/
def Outcome.state : Outcome → State
  | .returned st => st
  | .threw st => st

/-- The statement `flash_message(res.responseJSON.message)`: reading `.message`
of an `undefined` `responseJSON` throws before anything is written. -/
def flash_response_message (res : FailResponse) (st : State) : Outcome :=
  match res.responseJSON with
  | none => Outcome.threw st
  | some body => Outcome.returned (flash_message (body.get "message") st)

/-- The entity read from the form by the Create handler (lines 53-71) and, in
the same words, by the Update handler (lines 100-118). -/
def formPayload (form : Form) : Payload :=
  { name := form.promotion_name
    description := form.promotion_description
    products_type := form.promotion_products_type
    promotion_code := form.promotion_code
    require_code := form.promotion_require_code == "true"
    start_date := form.promotion_start_date
    end_date := form.promotion_end_date
    is_active := form.promotion_is_active == "true" }

/-! ## Create, Update, Retrieve, Delete, Activate, Deactivate, Clear -/

/-- The `#create-btn` click handler (lines 51-80): the new state and the request. -/
def create_click (st : State) : State × AjaxSettings :=
  let data := formPayload st.form
  ({ st with flash_message := "" },
    { type := "POST", url := "/api/promotions", contentType := "application/json",
      data := RequestData.json data })

/-- The `done` callback of Create (lines 82-85). -/
def create_done (res : JSObj) (st : State) : Outcome :=
  Outcome.returned (flash_message (JSVal.str "Success") (update_form_data res st))

/-- The `fail` callback of Create (lines 87-89). -/
def create_fail (res : FailResponse) (st : State) : Outcome :=
  flash_response_message res st

/-- The `#update-btn` click handler (lines 97-127). -/
def update_click (st : State) : State × AjaxSettings :=
  let promotion_id := st.form.promotion_id
  let data := formPayload st.form
  ({ st with flash_message := "" },
    { type := "PUT", url := "/api/promotions/" ++ promotion_id,
      contentType := "application/json", data := RequestData.json data })

/-- The `done` callback of Update (lines 129-132). -/
def update_done (res : JSObj) (st : State) : Outcome :=
  Outcome.returned (flash_message (JSVal.str "Success") (update_form_data res st))

/-- The `fail` callback of Update (lines 134-136). -/
def update_fail (res : FailResponse) (st : State) : Outcome :=
  flash_response_message res st

/-- The `#retrieve-btn` click handler (lines 144-155). -/
def retrieve_click (st : State) : State × AjaxSettings :=
  let promotion_id := st.form.promotion_id
  ({ st with flash_message := "" },
    { type := "GET", url := "/api/promotions/" ++ promotion_id,
      contentType := "application/json", data := RequestData.empty })

/-- The `done` callback of Retrieve (lines 157-161). -/
def retrieve_done (res : JSObj) (st : State) : Outcome :=
  Outcome.returned (flash_message (JSVal.str "Success") (update_form_data res st))

/-- The `fail` callback of Retrieve (lines 163-166): the form is cleared first. -/
def retrieve_fail (res : FailResponse) (st : State) : Outcome :=
  flash_response_message res (clear_form_data st)

/-- The `#delete-btn` click handler (lines 174-185). -/
def delete_click (st : State) : State × AjaxSettings :=
  let promotion_id := st.form.promotion_id
  ({ st with flash_message := "" },
    { type := "DELETE", url := "/api/promotions/" ++ promotion_id,
      contentType := "application/json", data := RequestData.empty })

/-- The `fail` callback of Delete (lines 193-195): the response is not read. -/
def delete_fail (_res : FailResponse) (st : State) : Outcome :=
  Outcome.returned (flash_message (JSVal.str "Server error!") st)

/-- The `#activate-btn` click handler (lines 202-213). -/
def activate_click (st : State) : State × AjaxSettings :=
  let promotion_id := st.form.promotion_id
  ({ st with flash_message := "" },
    { type := "PUT", url := "/api/promotions/" ++ promotion_id ++ "/activate",
      contentType := "application/json", data := RequestData.empty })

/-- The `done` callback of Activate (lines 215-218). -/
def activate_done (res : JSObj) (st : State) : Outcome :=
  Outcome.returned (flash_message (JSVal.str "Success") (update_form_data res st))

/-- The `fail` callback of Activate (lines 220-222). -/
def activate_fail (res : FailResponse) (st : State) : Outcome :=
  flash_response_message res st

/-- The `#deactivate-btn` click handler (lines 230-241). -/
def deactivate_click (st : State) : State × AjaxSettings :=
  let promotion_id := st.form.promotion_id
  ({ st with flash_message := "" },
    { type := "PUT", url := "/api/promotions/" ++ promotion_id ++ "/deactivate",
      contentType := "application/json", data := RequestData.empty })

/-- The `done` callback of Deactivate (lines 243-246). -/
def deactivate_done (res : JSObj) (st : State) : Outcome :=
  Outcome.returned (flash_message (JSVal.str "Success") (update_form_data res st))

/-- The `fail` callback of Deactivate (lines 248-250). -/
def deactivate_fail (res : FailResponse) (st : State) : Outcome :=
  flash_response_message res st

/-- The `#clear-btn` click handler (lines 258-262).  The page has no `#pet_id`
element in the modelled state, so `$("#pet_id").val("")` writes nothing. -/
def clear_click (st : State) : State :=
  clear_form_data { st with flash_message := "" }

/-! ## Search -/

/-- The local function `appendQueryParam` (lines 278-284), with the captured
variable `queryString` passed in and the updated one returned. -/
def appendQueryParam (queryString key value : String) : String :=
  if queryString.length > 0 then
    queryString ++ ("&" ++ key ++ "=" ++ value)
  else
    queryString ++ (key ++ "=" ++ value)

/-- The statement at lines 294-296: the `require_code` parameter. -/
def requireCodeBranch (queryString requireCode : String) : String :=
  if requireCode ≠ "" ∧ toLowerCase requireCode ≠ "all" then
    appendQueryParam queryString "require_code"
      (if toLowerCase requireCode = "true" then "true" else "false")
  else queryString

/-- The query string assembled by the Search handler (lines 276-304) from the
five values read at lines 270-274. -/
def buildQueryString (name productsType requireCode startDate endDate : String) : String :=
  let queryString := ""
  let queryString := if name ≠ "" then appendQueryParam queryString "name" name else queryString
  let queryString :=
    if productsType ≠ "" then appendQueryParam queryString "products_type" productsType
    else queryString
  let queryString := requireCodeBranch queryString requireCode
  let queryString :=
    if startDate ≠ "" then appendQueryParam queryString "start_date" startDate else queryString
  let queryString :=
    if endDate ≠ "" then appendQueryParam queryString "end_date" endDate else queryString
  queryString

/-- The `#search-btn` click handler (lines 268-313). -/
def search_click (st : State) : State × AjaxSettings :=
  let name := st.form.promotion_name
  let productsType := st.form.promotion_products_type
  let requireCode := st.form.promotion_require_code
  let startDate := st.form.promotion_start_date
  let endDate := st.form.promotion_end_date
  let queryString := buildQueryString name productsType requireCode startDate endDate
  ({ st with flash_message := "" },
    { type := "GET", url := "/api/promotions?" ++ queryString,
      contentType := "application/json", data := RequestData.empty })

/-- The markup written before the loop (lines 317-328). -/
def tableHead : String :=
  "<table class=\"table table-striped\" cellpadding=\"10\">"
    ++ "<thead><tr>"
    ++ "<th>ID</th>"
    ++ "<th>Name</th>"
    ++ "<th>Description</th>"
    ++ "<th>Products Type</th>"
    ++ "<th>Promotion Code</th>"
    ++ "<th>Require Code</th>"
    ++ "<th>Start Date</th>"
    ++ "<th>End Date</th>"
    ++ "<th>Is Active</th>"
    ++ "</tr></thead><tbody>"

/-- The template literal of line 332 for the promotion at index `i`. -/
def tableRow (i : Nat) (promotion : JSObj) : String :=
  "<tr id=\"row_" ++ numberToString (Int.ofNat i) ++ "\"><td>" ++ (promotion.get "_id").toStr
    ++ "</td><td>" ++ (promotion.get "name").toStr
    ++ "</td><td>" ++ (promotion.get "description").toStr
    ++ "</td><td>" ++ (promotion.get "products_type").toStr
    ++ "</td><td>" ++ (promotion.get "promotion_code").toStr
    ++ "</td><td>" ++ (if (promotion.get "require_code").truthy then "Yes" else "No")
    ++ "</td><td>" ++ (promotion.get "start_date").toStr
    ++ "</td><td>" ++ (promotion.get "end_date").toStr
    ++ "</td><td>" ++ (if (promotion.get "is_active").truthy then "Yes" else "No")
    ++ "</td></tr>"

/-- The loop `for (let i = 0; i < res.length; i++)` of lines 330-336, entered at
index `i` with the elements from `res[i]` on still to visit. -/
def tableLoop : List JSObj → Nat → String → String
  | [], _, table => table
  | promotion :: rest, i, table => tableLoop rest (i + 1) (table ++ tableRow i promotion)

/-- The `done` callback of Search (lines 315-341). -/
def search_done (res : List JSObj) (st : State) : Outcome :=
  let st := { st with search_results := "" }
  let table := tableHead
  let table := tableLoop res 0 table
  let table := table ++ "</tbody></table>"
  let st := { st with search_results := st.search_results ++ table }
  Outcome.returned (flash_message (JSVal.str "Success") st)

/-- The `fail` callback of Search (lines 343-345). -/
def search_fail (res : FailResponse) (st : State) : Outcome :=
  flash_response_message res st

/-- The `done` callback of Delete (lines 187-191), with the requests it submits:
`$("#search-btn").click()` runs the Search click handler on the cleared form. -/
def delete_done (st : State) : Outcome × List AjaxSettings :=
  let st := clear_form_data st
  let (st, request) := search_click st
  (Outcome.returned (flash_message (JSVal.str "Promotion has been Deleted!") st), [request])

/-! ## Specification-side definitions -/

/-- The tri-state described for the require-code filter: no parameter for an
empty value or for `all` in any letter case, `true` for `true` in any letter
case, `false` for every other value. -/
def requireCodeParam (requireCode : String) : Option String :=
  if requireCode = "" ∨ toLowerCase requireCode = "all" then none
  else if toLowerCase requireCode = "true" then some "true"
  else some "false"

/-- The item `key=value` of a filter whose value is present, as literal text. -/
def literalItem (key value : String) : List String :=
  if value = "" then [] else [key ++ "=" ++ value]

/-- The items of the query string, reading every one of the five filters
literally: one item for each non-empty value. -/
def literalQueryItems (name productsType requireCode startDate endDate : String) : List String :=
  literalItem "name" name ++ literalItem "products_type" productsType
    ++ literalItem "require_code" requireCode
    ++ literalItem "start_date" startDate ++ literalItem "end_date" endDate

/-- The items of the query string, with the require-code item given by the
tri-state and the four other filters read literally. -/
def queryItems (name productsType requireCode startDate endDate : String) : List String :=
  literalItem "name" name ++ literalItem "products_type" productsType
    ++ (match requireCodeParam requireCode with
        | none => []
        | some v => ["require_code" ++ "=" ++ v])
    ++ literalItem "start_date" startDate ++ literalItem "end_date" endDate

/-- The form with all nine fields empty. -/
def emptyForm : Form :=
  { promotion_id := "", promotion_name := "", promotion_description := "",
    promotion_products_type := "", promotion_code := "", promotion_require_code := "",
    promotion_start_date := "", promotion_end_date := "", promotion_is_active := "" }

/-- The body rows of the results table for a response: one row per element, in
response order, the element at position `k` carrying the index `i + k`. -/
def tableRowsFrom (i : Nat) : List JSObj → List String
  | [] => []
  | promotion :: rest => tableRow i promotion :: tableRowsFrom (i + 1) rest

/-- The titles of the nine columns of the results table. -/
def columnTitles : List String :=
  ["ID", "Name", "Description", "Products Type", "Promotion Code", "Require Code",
    "Start Date", "End Date", "Is Active"]

/-- A page state in which the user has typed into the form and an earlier
search has left a table behind. -/
def filledState : State :=
  { form :=
      { promotion_id := "3", promotion_name := "Old name", promotion_description := "old",
        promotion_products_type := "toys", promotion_code := "OLD10",
        promotion_require_code := "true", promotion_start_date := "2023-01-01",
        promotion_end_date := "2023-12-31", promotion_is_active := "true" }
    flash_message := "Success"
    search_results := "<table></table>" }

/-- A Promotion as the data model describes it, with its identifier under `id`. -/
def promotionWithId : JSObj :=
  [("id", JSVal.str "7"), ("name", JSVal.str "Sale"), ("description", JSVal.str "d"),
    ("products_type", JSVal.str "books"), ("promotion_code", JSVal.str "S1"),
    ("require_code", JSVal.bool true), ("start_date", JSVal.str "2024-01-01"),
    ("end_date", JSVal.str "2024-02-01"), ("is_active", JSVal.bool false)]

/-- A Promotion with a numeric identifier, a `null` description and no
`products_type`. -/
def promotionSeven : JSObj :=
  [("_id", JSVal.num 7), ("name", JSVal.str "Sale"), ("description", JSVal.null),
    ("promotion_code", JSVal.str "S1"), ("require_code", JSVal.bool true),
    ("start_date", JSVal.str "2024-01-01"), ("end_date", JSVal.str "2024-02-01"),
    ("is_active", JSVal.bool false)]

/-- A Promotion whose name contains the markup of a row boundary. -/
def promotionWithMarkup : JSObj :=
  [("_id", JSVal.num 1), ("name", JSVal.str "</td></tr><tr><td>x"),
    ("description", JSVal.str "d"), ("products_type", JSVal.str "books"),
    ("promotion_code", JSVal.str "S1"), ("require_code", JSVal.bool false),
    ("start_date", JSVal.str "2024-01-01"), ("end_date", JSVal.str "2024-02-01"),
    ("is_active", JSVal.bool true)]

/-- Whether a row start tag opens at the head of the markup: `<tr` in either
letter case, followed by a space character, `/` or `>`. -/
def opensRow (markup : List Char) : Bool :=
  match markup with
  | c :: t :: r :: d :: _ =>
    c == '<' && (t == 't' || t == 'T') && (r == 'r' || r == 'R')
      && (d == ' ' || d == '>' || d == '/' || d == '\t' || d == '\n' || d == Char.ofNat 12)
  | _ => false

/-- The number of row start tags in the markup, counted wherever they occur. -/
def countRowTags : List Char → Nat
  | [] => 0
  | c :: cs => (if opensRow (c :: cs) then 1 else 0) + countRowTags cs

/-- The number of rows that the markup of a results display opens, the row of
the table head included. -/
def rowStartTags (markup : String) : Nat := countRowTags markup.toList

/-- Text that contains no `<`, so that it opens no tag when it is parsed. -/
def plainText (s : String) : Bool := s.toList.all (fun c => c != '<')

/-- A Promotion whose seven text cells are plain text. -/
def cellsPlain (promotion : JSObj) : Bool :=
  plainText (promotion.get "_id").toStr && plainText (promotion.get "name").toStr
    && plainText (promotion.get "description").toStr
    && plainText (promotion.get "products_type").toStr
    && plainText (promotion.get "promotion_code").toStr
    && plainText (promotion.get "start_date").toStr
    && plainText (promotion.get "end_date").toStr

/-- Markup whose last three characters are not `<`: no tag that starts in it
runs on into what follows. -/
def endsPlain (markup : List Char) : Bool :=
  match markup.reverse with
  | c :: b :: a :: _ => c != '<' && b != '<' && a != '<'
  | _ => false

/-! ## Lemmas -/

theorem length_eq_zero_iff (s : String) : s.length = 0 ↔ s = "" := by
  rcases s with ⟨l⟩
  cases l with
  | nil => exact ⟨fun _ => rfl, fun _ => rfl⟩
  | cons c cs =>
    constructor
    · intro h
      simp [String.length] at h
    · intro h
      exact absurd (congrArg String.data h) (by simp)

theorem append_eq_empty_iff (a b : String) : a ++ b = "" ↔ a = "" ∧ b = "" := by
  rw [← length_eq_zero_iff, ← length_eq_zero_iff a, ← length_eq_zero_iff b, String.length_append]
  omega

theorem appendQueryParam_eq (queryString key value : String) :
    appendQueryParam queryString key value =
      if queryString = "" then key ++ "=" ++ value
      else queryString ++ ("&" ++ (key ++ "=" ++ value)) := by
  unfold appendQueryParam
  by_cases h : queryString = ""
  · subst h
    simp
  · have hpos : queryString.length > 0 := by
      have := (length_eq_zero_iff queryString).not.mpr h
      omega
    simp [h, hpos, String.append_assoc]

theorem join_append_acc (l : List String) (acc : String) :
    List.foldl (fun r s => r ++ s) acc l = acc ++ String.join l := by
  induction l generalizing acc with
  | nil => simp [String.join]
  | cons a l ih =>
    simp only [String.join, List.foldl_cons]
    rw [ih (acc ++ a), ih ("" ++ a)]
    simp [String.join, String.append_assoc]

theorem join_nil : String.join [] = "" := rfl

theorem join_cons (a : String) (l : List String) :
    String.join (a :: l) = a ++ String.join l := by
  simp only [String.join, List.foldl_cons]
  rw [join_append_acc]
  simp [String.join]

theorem tableLoop_eq (res : List JSObj) (i : Nat) (table : String) :
    tableLoop res i table = table ++ String.join (tableRowsFrom i res) := by
  induction res generalizing i table with
  | nil => simp [tableLoop, tableRowsFrom, String.join]
  | cons p rest ih =>
    simp [tableLoop, tableRowsFrom, ih, join_cons, String.append_assoc]

theorem tableRowsFrom_length (res : List JSObj) (i : Nat) :
    (tableRowsFrom i res).length = res.length := by
  induction res generalizing i with
  | nil => rfl
  | cons p rest ih => simp [tableRowsFrom, ih]

theorem tableRowsFrom_getElem? (res : List JSObj) (i k : Nat) :
    (tableRowsFrom i res)[k]? = (res[k]?).map (tableRow (i + k)) := by
  induction res generalizing i k with
  | nil => simp [tableRowsFrom]
  | cons p rest ih =>
    cases k with
    | zero => simp [tableRowsFrom]
    | succ k =>
      simp only [tableRowsFrom, List.getElem?_cons_succ]
      rw [ih (i + 1) k, show i + 1 + k = i + (k + 1) by omega]

theorem buildQueryString_eq_join (name pt rc sd ed : String) :
    buildQueryString name pt rc sd ed = "&".intercalate (queryItems name pt rc sd ed) := by
  unfold buildQueryString queryItems literalItem requireCodeBranch requireCodeParam
  by_cases h1 : name = "" <;> by_cases h2 : pt = "" <;> by_cases h3 : rc = ""
    <;> by_cases h3a : toLowerCase rc = "all" <;> by_cases h3b : toLowerCase rc = "true"
    <;> by_cases h4 : sd = "" <;> by_cases h5 : ed = ""
    <;> simp [-String.reduceAppend, h1, h2, h3, h3a, h3b, h4, h5, String.intercalate,
      String.intercalate.go, appendQueryParam_eq, append_eq_empty_iff, String.append_assoc]

theorem head?_append_of_ne_empty (a b : String) (h : a ≠ "") :
    (a ++ b).toList.head? = a.toList.head? := by
  rcases a with ⟨l⟩
  cases l with
  | nil => exact absurd rfl h
  | cons c cs => simp [String.toList]

theorem head_appendQueryParam (queryString key value : String)
    (hq : queryString.toList.head? ≠ some '&') (hk : key.toList.head? ≠ some '&')
    (hk0 : key ≠ "") :
    (appendQueryParam queryString key value).toList.head? ≠ some '&' := by
  rw [appendQueryParam_eq]
  by_cases h : queryString = ""
  · rw [if_pos h, String.append_assoc, head?_append_of_ne_empty key _ hk0]
    exact hk
  · rw [if_neg h, head?_append_of_ne_empty queryString _ h]
    exact hq

theorem head_buildQueryString (name pt rc sd ed : String) :
    (buildQueryString name pt rc sd ed).toList.head? ≠ some '&' := by
  have h0 : ("" : String).toList.head? ≠ some '&' := by decide
  have step : ∀ (c : Prop) [Decidable c] (q key value : String),
      q.toList.head? ≠ some '&' → key.toList.head? ≠ some '&' → key ≠ "" →
      (if c then appendQueryParam q key value else q).toList.head? ≠ some '&' := by
    intro c _ q key value hq hk hk0
    by_cases hc : c
    · rw [if_pos hc]
      exact head_appendQueryParam q key value hq hk hk0
    · rw [if_neg hc]
      exact hq
  unfold buildQueryString requireCodeBranch
  apply step _ _ "end_date" _ _ (by decide) (by decide)
  apply step _ _ "start_date" _ _ (by decide) (by decide)
  apply step _ _ "require_code" _ _ (by decide) (by decide)
  apply step _ _ "products_type" _ _ (by decide) (by decide)
  apply step _ _ "name" _ _ (by decide) (by decide)
  exact h0

theorem opensRow_of_ne (c : Char) (cs : List Char) (h : c ≠ '<') :
    opensRow (c :: cs) = false := by
  match cs with
  | [] => rfl
  | [_] => rfl
  | [_, _] => rfl
  | t :: r :: d :: rest => simp [opensRow, h]

theorem countRowTags_plain_append (u v : List Char) (h : ∀ c ∈ u, c ≠ '<') :
    countRowTags (u ++ v) = countRowTags v := by
  induction u with
  | nil => rfl
  | cons x u ih =>
    have hx : x ≠ '<' := h x (List.mem_cons_self x u)
    have hu : ∀ c ∈ u, c ≠ '<' := fun c hc => h c (List.mem_cons_of_mem x hc)
    simp [countRowTags, opensRow_of_ne x _ hx, ih hu]

theorem opensRow_append (x a b c : Char) (u v : List Char) :
    opensRow (x :: (u ++ a :: b :: c :: v)) = opensRow (x :: (u ++ [a, b, c])) := by
  match u with
  | [] => rfl
  | [_] => rfl
  | [_, _] => rfl
  | _ :: _ :: _ :: _ => rfl

theorem countRowTags_append_tail (u : List Char) (a b c : Char) (v : List Char)
    (ha : a ≠ '<') (hb : b ≠ '<') (hc : c ≠ '<') :
    countRowTags (u ++ a :: b :: c :: v) = countRowTags (u ++ [a, b, c]) + countRowTags v := by
  induction u with
  | nil =>
    simp [countRowTags, opensRow_of_ne a _ ha, opensRow_of_ne b _ hb, opensRow_of_ne c _ hc]
  | cons x u ih =>
    have e1 : countRowTags (x :: (u ++ a :: b :: c :: v))
        = (if opensRow (x :: (u ++ a :: b :: c :: v)) then 1 else 0)
          + countRowTags (u ++ a :: b :: c :: v) := rfl
    have e2 : countRowTags (x :: (u ++ [a, b, c]))
        = (if opensRow (x :: (u ++ [a, b, c])) then 1 else 0)
          + countRowTags (u ++ [a, b, c]) := rfl
    rw [List.cons_append, List.cons_append, e1, e2, opensRow_append, ih]
    omega

theorem countRowTags_literal_append (w v : List Char) (h : endsPlain w = true) :
    countRowTags (w ++ v) = countRowTags w + countRowTags v := by
  unfold endsPlain at h
  match hw : w.reverse, h with
  | c :: b :: a :: t, h =>
    have hw2 : w = t.reverse ++ [a, b, c] := by
      have := congrArg List.reverse hw
      simpa using this
    simp only [Bool.and_eq_true, bne_iff_ne, ne_eq] at h
    rw [hw2, List.append_assoc]
    exact countRowTags_append_tail t.reverse a b c v h.2 h.1.2 h.1.1

theorem digitChar_ne_lt (n : Nat) (h : n < 10) : Nat.digitChar n ≠ '<' := by
  interval_cases n <;> decide

theorem toDigitsCore_plain (fuel n : Nat) (ds : List Char) (h : ∀ c ∈ ds, c ≠ '<') :
    ∀ c ∈ Nat.toDigitsCore 10 fuel n ds, c ≠ '<' := by
  induction fuel generalizing n ds with
  | zero => simpa [Nat.toDigitsCore] using h
  | succ fuel ih =>
    have hds : ∀ c ∈ Nat.digitChar (n % 10) :: ds, c ≠ '<' := by
      intro c hc
      rcases List.mem_cons.mp hc with hc | hc
      · rw [hc]
        exact digitChar_ne_lt _ (Nat.mod_lt _ (by decide))
      · exact h c hc
    unfold Nat.toDigitsCore
    simp only
    split
    · exact hds
    · exact ih _ _ hds

theorem toString_nat_plain (n : Nat) : ∀ c ∈ (toString n).toList, c ≠ '<' := by
  have h : (toString n).toList = Nat.toDigits 10 n := rfl
  rw [h]
  exact toDigitsCore_plain _ _ [] (by simp)

theorem numberToString_ofNat (i : Nat) (h : i < 2 ^ 53) :
    numberToString (Int.ofNat i) = toString i := by
  have h1 : (Int.ofNat i).natAbs < 2 ^ 53 := by simpa using h
  have h2 : ¬ (Int.ofNat i < 0) := by simp
  unfold numberToString
  simp only [h1, h2, if_true, if_false]
  exact String.empty_append _

theorem plain_of_plainText (t : String) (h : plainText t = true) :
    ∀ c ∈ t.data, c ≠ '<' := by
  intro c hc
  have := List.all_eq_true.mp h c hc
  simpa using this

theorem plainText_yesNo (b : Bool) : plainText (if b = true then "Yes" else "No") = true := by
  cases b <;> decide

theorem countRowTags_tableRow (i : Nat) (p : JSObj) (v : List Char) (hi : i < 2 ^ 53)
    (hp : cellsPlain p = true) :
    countRowTags ((tableRow i p).data ++ v) = 1 + countRowTags v := by
  have lit : ∀ (l : String) (w : List Char), endsPlain l.data = true →
      countRowTags (l.data ++ w) = countRowTags l.data + countRowTags w :=
    fun l w h => countRowTags_literal_append _ _ h
  have cell : ∀ (t : String) (w : List Char), plainText t = true →
      countRowTags (t.data ++ w) = countRowTags w :=
    fun t w h => countRowTags_plain_append _ _ (plain_of_plainText t h)
  have hidx : plainText (toString i) = true :=
    List.all_eq_true.mpr (fun c hc => by simpa using toString_nat_plain i c hc)
  simp only [cellsPlain, Bool.and_eq_true] at hp
  obtain ⟨⟨⟨⟨⟨⟨h1, h2⟩, h3⟩, h4⟩, h5⟩, h6⟩, h7⟩ := hp
  have c0 : countRowTags ("<tr id=\"row_" : String).data = 1 := by decide
  have c1 : countRowTags ("\"><td>" : String).data = 0 := by decide
  have c2 : countRowTags ("</td><td>" : String).data = 0 := by decide
  have c3 : countRowTags ("</td></tr>" : String).data = 0 := by decide
  unfold tableRow
  rw [numberToString_ofNat i hi]
  simp only [String.data_append, List.append_assoc]
  rw [lit "<tr id=\"row_" _ (by decide), cell _ _ hidx, lit "\"><td>" _ (by decide),
    cell _ _ h1, lit "</td><td>" _ (by decide), cell _ _ h2, lit "</td><td>" _ (by decide),
    cell _ _ h3, lit "</td><td>" _ (by decide), cell _ _ h4, lit "</td><td>" _ (by decide),
    cell _ _ h5, lit "</td><td>" _ (by decide), cell _ _ (plainText_yesNo _),
    lit "</td><td>" _ (by decide), cell _ _ h6, lit "</td><td>" _ (by decide), cell _ _ h7,
    lit "</td><td>" _ (by decide), cell _ _ (plainText_yesNo _),
    lit "</td></tr>" _ (by decide), c0, c1, c2, c3]
  omega

theorem countRowTags_rows (res : List JSObj) (i : Nat) (v : List Char)
    (hlen : i + res.length ≤ 2 ^ 53) (hp : ∀ p ∈ res, cellsPlain p = true) :
    countRowTags ((String.join (tableRowsFrom i res)).data ++ v)
      = res.length + countRowTags v := by
  induction res generalizing i with
  | nil => simp [tableRowsFrom, join_nil]
  | cons p rest ih =>
    have hlen1 : i < 2 ^ 53 := by
      simp only [List.length_cons] at hlen
      omega
    have hlen2 : i + 1 + rest.length ≤ 2 ^ 53 := by
      simp only [List.length_cons] at hlen
      omega
    have hp1 : cellsPlain p = true := hp p (List.mem_cons_self p rest)
    have hp2 : ∀ q ∈ rest, cellsPlain q = true := fun q hq => hp q (List.mem_cons_of_mem p hq)
    simp only [tableRowsFrom, join_cons, String.data_append, List.append_assoc, List.length_cons]
    rw [countRowTags_tableRow i p _ hlen1 hp1, ih (i + 1) hlen2 hp2]
    omega

set_option maxRecDepth 20000 in
theorem rowStartTags_table (res : List JSObj) (hlen : res.length ≤ 2 ^ 53)
    (hp : ∀ p ∈ res, cellsPlain p = true) :
    rowStartTags (tableHead ++ String.join (tableRowsFrom 0 res) ++ "</tbody></table>")
      = res.length + 1 := by
  have hhead : endsPlain tableHead.data = true := by decide
  have chead : countRowTags tableHead.data = 1 := by decide
  have cfoot : countRowTags ("</tbody></table>" : String).data = 0 := by decide
  unfold rowStartTags
  show countRowTags (tableHead ++ String.join (tableRowsFrom 0 res) ++ "</tbody></table>").data = _
  simp only [String.data_append, List.append_assoc]
  rw [countRowTags_literal_append _ _ hhead, countRowTags_rows res 0 _ (by omega) hp, chead,
    cfoot]
  omega

/-! ## The query string of Search -/

/-- C1, as stated, fails: with the require-code filter set to `all` and the four
other filters empty, the handler builds the empty query string, while the
literal reading of the five filters gives the item `require_code=all`. -/
theorem C1_counterexample :
    buildQueryString "" "" "all" "" "" = ""
      ∧ "&".intercalate (literalQueryItems "" "" "all" "" "") = "require_code=all"
      ∧ buildQueryString "" "" "all" "" ""
          ≠ "&".intercalate (literalQueryItems "" "" "all" "" "") := by
  decide

/-- C1 (amended): for all five filter values the query string is the `&`-joined
list of items in the order name, products_type, require_code, start_date,
end_date, where name, products_type, start_date and end_date contribute
`key=value` with the value as literal text exactly when the value is non-empty
and the require-code filter contributes the item given by its tri-state; no `&`
is put in front of the first item; with require-code empty, `true` or `false`
this is the literal reading of all five filters; all filters empty give the
empty string, and name `Sale` with end date `2024-01-01` gives
`name=Sale&end_date=2024-01-01`. -/
theorem C1_query_string_is_join (name productsType requireCode startDate endDate : String) :
    buildQueryString name productsType requireCode startDate endDate
        = "&".intercalate (queryItems name productsType requireCode startDate endDate)
      ∧ (buildQueryString name productsType requireCode startDate endDate).toList.head?
          ≠ some '&'
      ∧ buildQueryString name productsType "" startDate endDate
          = "&".intercalate (literalQueryItems name productsType "" startDate endDate)
      ∧ buildQueryString name productsType "true" startDate endDate
          = "&".intercalate (literalQueryItems name productsType "true" startDate endDate)
      ∧ buildQueryString name productsType "false" startDate endDate
          = "&".intercalate (literalQueryItems name productsType "false" startDate endDate)
      ∧ buildQueryString "" "" "" "" "" = ""
      ∧ buildQueryString "Sale" "" "" "" "2024-01-01" = "name=Sale&end_date=2024-01-01" := by
  have lit : ∀ rc : String, queryItems name productsType rc startDate endDate
      = literalQueryItems name productsType rc startDate endDate →
      buildQueryString name productsType rc startDate endDate
        = "&".intercalate (literalQueryItems name productsType rc startDate endDate) := by
    intro rc h
    rw [← h]
    exact buildQueryString_eq_join name productsType rc startDate endDate
  refine ⟨buildQueryString_eq_join _ _ _ _ _, head_buildQueryString _ _ _ _ _,
    lit "" ?_, lit "true" ?_, lit "false" ?_, by decide, by decide⟩
  · simp [queryItems, literalQueryItems, literalItem, requireCodeParam]
  · have h : requireCodeParam "true" = some "true" := by decide
    simp [queryItems, literalQueryItems, literalItem, h]
  · have h : requireCodeParam "false" = some "false" := by decide
    simp [queryItems, literalQueryItems, literalItem, h]

/-- C2: in the require-code statement of Search, a value that is empty or equals
`all` in any letter case leaves the query string as it is; a value that equals
`true` in any letter case appends exactly `require_code=true`; every other
non-empty value appends exactly `require_code=false` (the appended item is
preceded by `&` exactly when the query string is not empty); `ALL` and `All`
append nothing and `TRUE` appends `require_code=true`. -/
theorem C2_require_code_tristate (queryString v : String) :
    ((v = "" ∨ toLowerCase v = "all") → requireCodeBranch queryString v = queryString)
      ∧ (toLowerCase v = "true" → requireCodeBranch queryString v
          = queryString ++ ((if queryString = "" then "" else "&") ++ "require_code=true"))
      ∧ (v ≠ "" → toLowerCase v ≠ "all" → toLowerCase v ≠ "true" →
          requireCodeBranch queryString v
            = queryString ++ ((if queryString = "" then "" else "&") ++ "require_code=false"))
      ∧ requireCodeBranch queryString "ALL" = queryString
      ∧ requireCodeBranch queryString "All" = queryString
      ∧ requireCodeBranch queryString "TRUE"
          = queryString ++ ((if queryString = "" then "" else "&") ++ "require_code=true") := by
  have happ : ∀ value : String, appendQueryParam queryString "require_code" value
      = queryString ++ ((if queryString = "" then "" else "&") ++ ("require_code=" ++ value)) := by
    intro value
    rw [appendQueryParam_eq]
    by_cases hq : queryString = ""
    · subst hq
      simp [String.append_assoc]
    · simp [hq, String.append_assoc]
  have htrue : ∀ w : String, toLowerCase w = "true" → requireCodeBranch queryString w
      = queryString ++ ((if queryString = "" then "" else "&") ++ "require_code=true") := by
    intro w hw
    have hne : w ≠ "" := by
      intro h0
      subst h0
      exact absurd hw (by decide)
    have hall : toLowerCase w ≠ "all" := by
      rw [hw]
      decide
    unfold requireCodeBranch
    rw [if_pos ⟨hne, hall⟩, if_pos hw, happ]
    rfl
  have hnone : ∀ w : String, (w = "" ∨ toLowerCase w = "all") →
      requireCodeBranch queryString w = queryString := by
    intro w hw
    unfold requireCodeBranch
    rw [if_neg]
    rintro ⟨h1, h2⟩
    rcases hw with hw | hw
    · exact h1 hw
    · exact h2 hw
  refine ⟨hnone v, htrue v, ?_, hnone "ALL" (Or.inr (by decide)),
    hnone "All" (Or.inr (by decide)), htrue "TRUE" (by decide)⟩
  intro h1 h2 h3
  unfold requireCodeBranch
  rw [if_pos ⟨h1, h2⟩, if_neg h3, happ]
  rfl

/-- C2 at concrete values: `all` appends nothing to `name=Sale`, `True` appends
`&require_code=true`, and `yes` appends `&require_code=false`. -/
theorem C2_require_code_tristate_witness :
    requireCodeBranch "name=Sale" "all" = "name=Sale"
      ∧ requireCodeBranch "name=Sale" "True" = "name=Sale&require_code=true"
      ∧ requireCodeBranch "name=Sale" "yes" = "name=Sale&require_code=false" :=
  ⟨(C2_require_code_tristate "name=Sale" "all").1 (Or.inr (by decide)),
    (C2_require_code_tristate "name=Sale" "True").2.1 (by decide),
    (C2_require_code_tristate "name=Sale" "yes").2.2.1 (by decide) (by decide) (by decide)⟩

/-! ## Form binding -/

/-- C3: when `require_code` and `is_active` of the response are the JSON
booleans `b1` and `b2`, populating the form from it and reading the entity back
as the Create and Update handlers do gives a payload whose `require_code` is
`b1` and whose `is_active` is `b2`. -/
theorem C3_boolean_roundtrip (res : JSObj) (st : State) (b1 b2 : Bool)
    (h1 : res.get "require_code" = JSVal.bool b1) (h2 : res.get "is_active" = JSVal.bool b2) :
    (create_click (update_form_data res st)).2.data
        = RequestData.json (formPayload (update_form_data res st).form)
      ∧ (update_click (update_form_data res st)).2.data
        = RequestData.json (formPayload (update_form_data res st).form)
      ∧ (formPayload (update_form_data res st).form).require_code = b1
      ∧ (formPayload (update_form_data res st).form).is_active = b2 := by
  refine ⟨rfl, rfl, ?_, ?_⟩
  · cases b1 <;> simp [formPayload, update_form_data, h1, JSVal.looseEqTrue, valSet]
  · cases b2 <;> simp [formPayload, update_form_data, h2, JSVal.looseEqTrue, valSet]

/-- C3 at a concrete response: `require_code: true`, `is_active: false` read back
as `true` and `false` from a form that held other values before. -/
theorem C3_boolean_roundtrip_witness :
    promotionWithId.get "require_code" = JSVal.bool true
      ∧ promotionWithId.get "is_active" = JSVal.bool false
      ∧ (formPayload (update_form_data promotionWithId filledState).form).require_code = true
      ∧ (formPayload (update_form_data promotionWithId filledState).form).is_active = false :=
  ⟨by decide, by decide,
    (C3_boolean_roundtrip promotionWithId filledState true false (by decide) (by decide)).2.2⟩

/-- C4, as stated, fails: the number `1` and the string `1` are not the boolean
`true`, and the form fields are set to `true` for them. -/
theorem C4_counterexample :
    JSVal.num 1 ≠ JSVal.bool true ∧ JSVal.str "1" ≠ JSVal.bool true
      ∧ (update_form_data [("require_code", JSVal.num 1), ("is_active", JSVal.str "1")]
          filledState).form.promotion_require_code = "true"
      ∧ (update_form_data [("require_code", JSVal.num 1), ("is_active", JSVal.str "1")]
          filledState).form.promotion_is_active = "true" := by
  decide

/-- C4 (amended): the `require_code` field (and likewise `is_active`) is set to
`true` if and only if the source value is loosely equal (`==`) to `true`, and to
`false` otherwise; the boolean `true`, the number `1` and the string `1` are
loosely equal to `true`; `false`, a missing field, `null`, the number `0` and the
string `true` are not; a number is loosely equal to `true` exactly when it is
`1`. -/
theorem C4_boolean_field_coercion (res : JSObj) (st : State) (n : Int) :
    ((update_form_data res st).form.promotion_require_code = "true"
        ↔ (res.get "require_code").looseEqTrue = true)
      ∧ ((update_form_data res st).form.promotion_require_code = "false"
        ↔ (res.get "require_code").looseEqTrue = false)
      ∧ ((update_form_data res st).form.promotion_is_active = "true"
        ↔ (res.get "is_active").looseEqTrue = true)
      ∧ ((update_form_data res st).form.promotion_is_active = "false"
        ↔ (res.get "is_active").looseEqTrue = false)
      ∧ (JSVal.bool true).looseEqTrue = true
      ∧ (JSVal.num 1).looseEqTrue = true
      ∧ (JSVal.str "1").looseEqTrue = true
      ∧ (JSVal.bool false).looseEqTrue = false
      ∧ (JSObj.get [] "require_code").looseEqTrue = false
      ∧ JSVal.null.looseEqTrue = false
      ∧ (JSVal.num 0).looseEqTrue = false
      ∧ (JSVal.str "true").looseEqTrue = false
      ∧ ((JSVal.num n).looseEqTrue = true ↔ n = 1) := by
  refine ⟨?_, ?_, ?_, ?_, by decide, by decide, by decide, by decide, by decide, by decide,
    by decide, by decide, ?_⟩
  · cases h : (res.get "require_code").looseEqTrue <;> simp [update_form_data, h, valSet]
  · cases h : (res.get "require_code").looseEqTrue <;> simp [update_form_data, h, valSet]
  · cases h : (res.get "is_active").looseEqTrue <;> simp [update_form_data, h, valSet]
  · cases h : (res.get "is_active").looseEqTrue <;> simp [update_form_data, h, valSet]
  · simp [JSVal.looseEqTrue]

/-- C5, as stated, fails: for a response that carries its identifier under `id`,
the identifier field of the form is left empty after a successful Create, while
the value of the response field `id` is `7`. -/
theorem C5_counterexample :
    valSet (promotionWithId.get "id") = "7"
      ∧ (create_done promotionWithId filledState).state.form.promotion_id = ""
      ∧ (create_done promotionWithId filledState).state.form.promotion_id
          ≠ valSet (promotionWithId.get "id") := by
  decide

/-- C5 (amended): after the success handler of Create the identifier field
holds the value of the response field `_id`, the fields name, description,
products_type, promotion_code, start_date and end_date hold the values of the
response fields of the same name as `.val` stores them (a string as it is, a
missing or `null` field as the empty string, a number as its Number-to-string
text, a boolean as `true` or `false`), require_code and is_active hold `true`
or `false` according to the response, the status message is `Success` and the
results display is untouched; the resulting form is the same for every prior
state; for the response with `_id` 7, a `null` description and no
products_type the form holds `7`, the empty string and the empty string
there. -/
theorem C5_create_overwrites_form (res : JSObj) (st st2 : State) (s : String) :
    valSet (JSVal.str s) = s
      ∧ valSet JSVal.undefined = ""
      ∧ valSet JSVal.null = ""
      ∧ JSObj.get [] "name" = JSVal.undefined
      ∧ valSet (JSVal.bool true) = "true"
      ∧ valSet (JSVal.bool false) = "false"
      ∧ valSet (JSVal.num 7) = "7"
      ∧ valSet (JSVal.num (-42)) = "-42"
      ∧ valSet (JSVal.num 1152921504606846976) = "1152921504606847000"
      ∧ valSet (JSVal.num 1000000000000000000000) = "1e+21"
      ∧ create_done res st = Outcome.returned
        { form :=
            { promotion_id := valSet (res.get "_id")
              promotion_name := valSet (res.get "name")
              promotion_description := valSet (res.get "description")
              promotion_products_type := valSet (res.get "products_type")
              promotion_code := valSet (res.get "promotion_code")
              promotion_require_code :=
                if (res.get "require_code").looseEqTrue then "true" else "false"
              promotion_start_date := valSet (res.get "start_date")
              promotion_end_date := valSet (res.get "end_date")
              promotion_is_active :=
                if (res.get "is_active").looseEqTrue then "true" else "false" }
          flash_message := "Success"
          search_results := st.search_results }
      ∧ (create_done res st).state.form = (create_done res st2).state.form
      ∧ create_done promotionSeven filledState = Outcome.returned
        { form :=
            { promotion_id := "7"
              promotion_name := "Sale"
              promotion_description := ""
              promotion_products_type := ""
              promotion_code := "S1"
              promotion_require_code := "true"
              promotion_start_date := "2024-01-01"
              promotion_end_date := "2024-02-01"
              promotion_is_active := "false" }
          flash_message := "Success"
          search_results := "<table></table>" } := by
  refine ⟨rfl, rfl, rfl, rfl, rfl, rfl, by decide, by decide, by decide, by decide, ?_, rfl,
    by decide⟩
  simp [create_done, flash_message, update_form_data, valSet, appended]

/-! ## Failure handling -/

/-- C6: a failed Delete sets the status message to `Server error!` for every
failure response, with or without a body; a failed Update whose body carries
the message `m` sets the status message to `m`; neither touches the form or the
results display. -/
theorem C6_failure_messages (res : FailResponse) (st : State) (body : JSObj) (m : String)
    (h : body.get "message" = JSVal.str m) :
    delete_fail res st = Outcome.returned { st with flash_message := "Server error!" }
      ∧ delete_fail { responseJSON := some body } st
          = Outcome.returned { st with flash_message := "Server error!" }
      ∧ delete_fail { responseJSON := none } st
          = Outcome.returned { st with flash_message := "Server error!" }
      ∧ update_fail { responseJSON := some body } st
          = Outcome.returned { st with flash_message := m } := by
  refine ⟨?_, ?_, ?_, ?_⟩
  · simp [delete_fail, flash_message, appended]
  · simp [delete_fail, flash_message, appended]
  · simp [delete_fail, flash_message, appended]
  · simp [update_fail, flash_response_message, flash_message, appended, h]

/-- C6 at the body `{"message": "duplicate code"}`: a failed Update shows
`duplicate code`, a failed Delete with the same body shows `Server error!`. -/
theorem C6_failure_messages_witness :
    JSObj.get [("message", JSVal.str "duplicate code")] "message" = JSVal.str "duplicate code"
      ∧ (delete_fail { responseJSON := some [("message", JSVal.str "duplicate code")] }
          filledState).state.flash_message = "Server error!"
      ∧ (update_fail { responseJSON := some [("message", JSVal.str "duplicate code")] }
          filledState).state.flash_message = "duplicate code" :=
  have h := C6_failure_messages { responseJSON := some [("message", JSVal.str "duplicate code")] }
    filledState [("message", JSVal.str "duplicate code")] "duplicate code" (by decide)
  ⟨by decide, by rw [h.1]; rfl, by rw [h.2.2.2]; rfl⟩

/-- C9: for every state and every failure response, the failure handlers of
Create, Update, Activate, Deactivate, Delete and Search leave the nine form
fields and the results display as they were, and so do the click handlers that
start these actions; the failure handler of Retrieve leaves the results display
as it was and resets the nine form fields to the empty string; when the
response carries a body, the handlers other than Delete change nothing but the
status message, which becomes the appended `message` of the body. -/
theorem C9_failure_frame (res : FailResponse) (body : JSObj) (st : State) :
    ((create_fail res st).state.form = st.form
        ∧ (create_fail res st).state.search_results = st.search_results)
      ∧ ((update_fail res st).state.form = st.form
        ∧ (update_fail res st).state.search_results = st.search_results)
      ∧ ((activate_fail res st).state.form = st.form
        ∧ (activate_fail res st).state.search_results = st.search_results)
      ∧ ((deactivate_fail res st).state.form = st.form
        ∧ (deactivate_fail res st).state.search_results = st.search_results)
      ∧ ((delete_fail res st).state.form = st.form
        ∧ (delete_fail res st).state.search_results = st.search_results)
      ∧ ((search_fail res st).state.form = st.form
        ∧ (search_fail res st).state.search_results = st.search_results)
      ∧ ((retrieve_fail res st).state.form = emptyForm
        ∧ (retrieve_fail res st).state.search_results = st.search_results)
      ∧ ((create_click st).1.form = st.form
        ∧ (create_click st).1.search_results = st.search_results
        ∧ (update_click st).1.form = st.form
        ∧ (update_click st).1.search_results = st.search_results
        ∧ (activate_click st).1.form = st.form
        ∧ (activate_click st).1.search_results = st.search_results
        ∧ (deactivate_click st).1.form = st.form
        ∧ (deactivate_click st).1.search_results = st.search_results
        ∧ (delete_click st).1.form = st.form
        ∧ (delete_click st).1.search_results = st.search_results
        ∧ (search_click st).1.form = st.form
        ∧ (search_click st).1.search_results = st.search_results
        ∧ (retrieve_click st).1.form = st.form
        ∧ (retrieve_click st).1.search_results = st.search_results)
      ∧ (create_fail { responseJSON := some body } st
          = Outcome.returned { st with flash_message := appended (body.get "message") }
        ∧ update_fail { responseJSON := some body } st
          = Outcome.returned { st with flash_message := appended (body.get "message") }
        ∧ activate_fail { responseJSON := some body } st
          = Outcome.returned { st with flash_message := appended (body.get "message") }
        ∧ deactivate_fail { responseJSON := some body } st
          = Outcome.returned { st with flash_message := appended (body.get "message") }
        ∧ search_fail { responseJSON := some body } st
          = Outcome.returned { st with flash_message := appended (body.get "message") }
        ∧ retrieve_fail { responseJSON := some body } st
          = Outcome.returned { form := emptyForm,
                               flash_message := appended (body.get "message"),
                               search_results := st.search_results }) := by
  have frame : (flash_response_message res st).state.form = st.form
      ∧ (flash_response_message res st).state.search_results = st.search_results := by
    unfold flash_response_message
    cases res.responseJSON <;> exact ⟨rfl, rfl⟩
  have frameClear : (flash_response_message res (clear_form_data st)).state.form = emptyForm
      ∧ (flash_response_message res (clear_form_data st)).state.search_results
          = st.search_results := by
    unfold flash_response_message
    cases res.responseJSON <;> exact ⟨rfl, rfl⟩
  have msg : flash_response_message { responseJSON := some body } st
      = Outcome.returned { st with flash_message := appended (body.get "message") } := by
    simp [flash_response_message, flash_message]
  refine ⟨frame, frame, frame, frame, ⟨rfl, rfl⟩, frame, frameClear,
    ⟨rfl, rfl, rfl, rfl, rfl, rfl, rfl, rfl, rfl, rfl, rfl, rfl, rfl, rfl⟩,
    msg, msg, msg, msg, msg, ?_⟩
  simp [retrieve_fail, flash_response_message, flash_message, clear_form_data, valSet, emptyForm]

/-! ## Rendering of search results -/

set_option maxRecDepth 40000 in
/-- C7, as stated, fails: for a response of one Promotion whose name contains
the markup of a row boundary, the results display opens three rows, the row of
the table head and two body rows, for one element. -/
theorem C7_counterexample :
    [promotionWithMarkup].length = 1
      ∧ (search_done [promotionWithMarkup] filledState).state.search_results
          = tableHead
            ++ ("<tr id=\"row_0\"><td>1</td><td></td></tr><tr><td>x</td><td>d</td>"
              ++ "<td>books</td><td>S1</td><td>No</td><td>2024-01-01</td>"
              ++ "<td>2024-02-01</td><td>Yes</td></tr>")
            ++ "</tbody></table>"
      ∧ rowStartTags (search_done [promotionWithMarkup] filledState).state.search_results
          = 3 := by
  decide

set_option maxRecDepth 40000 in
/-- C7 (amended): for every response list and every prior state, the success
handler of Search replaces the results display by the markup of the table head
with the nine column titles, followed by one row fragment per element of the
response, in response order, followed by the closing markup; the status message
is `Success` and the form is untouched; there are exactly as many fragments as
elements and the fragment at position `k` is the row markup of the element at
position `k`; the row markup opens a row with identifier `row_k` and holds the
nine values as literal text, not escaped, with `Yes` for a `require_code` or
`is_active` that is `true` and `No` for one that is `false`; when no text value
of the response contains `<` (and the response has fewer than `2^32` elements,
as every array has), the display opens exactly one row per element besides the
row of the table head; for the empty list the table consists of the head and
the closing markup only and opens no body row; a missing or `null`
`require_code` is shown as `No`. -/
theorem C7_search_renders_table (res : List JSObj) (st : State) (k : Nat)
    (id name description productsType code startDate endDate : String) (rc ia : Bool) :
    search_done res st = Outcome.returned
        { form := st.form
          flash_message := "Success"
          search_results := tableHead ++ String.join (tableRowsFrom 0 res) ++ "</tbody></table>" }
      ∧ (tableRowsFrom 0 res).length = res.length
      ∧ (tableRowsFrom 0 res)[k]? = (res[k]?).map (tableRow k)
      ∧ tableHead = "<table class=\"table table-striped\" cellpadding=\"10\"><thead><tr>"
          ++ String.join (columnTitles.map (fun title => "<th>" ++ title ++ "</th>"))
          ++ "</tr></thead><tbody>"
      ∧ columnTitles.length = 9
      ∧ (k < 2 ^ 53 →
          tableRow k
              [("_id", JSVal.str id), ("name", JSVal.str name),
                ("description", JSVal.str description),
                ("products_type", JSVal.str productsType), ("promotion_code", JSVal.str code),
                ("require_code", JSVal.bool rc), ("start_date", JSVal.str startDate),
                ("end_date", JSVal.str endDate), ("is_active", JSVal.bool ia)]
            = "<tr id=\"row_" ++ toString k ++ "\"><td>" ++ id ++ "</td><td>" ++ name
              ++ "</td><td>" ++ description ++ "</td><td>" ++ productsType
              ++ "</td><td>" ++ code ++ "</td><td>" ++ (if rc then "Yes" else "No")
              ++ "</td><td>" ++ startDate ++ "</td><td>" ++ endDate
              ++ "</td><td>" ++ (if ia then "Yes" else "No") ++ "</td></tr>")
      ∧ tableRow 0 promotionSeven
          = "<tr id=\"row_0\"><td>7</td><td>Sale</td><td>null</td><td>undefined</td>"
            ++ "<td>S1</td><td>Yes</td><td>2024-01-01</td><td>2024-02-01</td><td>No</td></tr>"
      ∧ tableRow 12 promotionWithMarkup
          = "<tr id=\"row_12\"><td>1</td><td></td></tr><tr><td>x</td><td>d</td>"
            ++ "<td>books</td><td>S1</td><td>No</td><td>2024-01-01</td><td>2024-02-01</td>"
            ++ "<td>Yes</td></tr>"
      ∧ (JSVal.num 1152921504606846976).toStr = "1152921504606847000"
      ∧ (JSVal.num 1000000000000000000000).toStr = "1e+21"
      ∧ ((∀ promotion ∈ res, cellsPlain promotion = true) → res.length < 2 ^ 32 →
          rowStartTags (search_done res st).state.search_results = res.length + 1)
      ∧ search_done [] st = Outcome.returned
        { form := st.form
          flash_message := "Success"
          search_results := tableHead ++ "</tbody></table>" }
      ∧ rowStartTags (tableHead ++ "</tbody></table>") = 1
      ∧ (JSVal.bool true).truthy = true
      ∧ (JSVal.bool false).truthy = false
      ∧ (JSObj.get [] "require_code").truthy = false
      ∧ JSVal.null.truthy = false := by
  have hdone : ∀ l : List JSObj, search_done l st = Outcome.returned
      { form := st.form
        flash_message := "Success"
        search_results := tableHead ++ String.join (tableRowsFrom 0 l) ++ "</tbody></table>" } := by
    intro l
    simp [search_done, flash_message, appended, tableLoop_eq]
  refine ⟨hdone res, tableRowsFrom_length res 0, ?_, by rfl, by decide, ?_, by decide,
    by decide, by decide, by decide, ?_, ?_, by decide, rfl, rfl, rfl, rfl⟩
  · simpa using tableRowsFrom_getElem? res 0 k
  · intro hk
    unfold tableRow
    rw [numberToString_ofNat k hk]
    cases rc <;> cases ia <;> simp [JSObj.get, List.lookup, JSVal.toStr, JSVal.truthy]
  · intro hplain hlen
    rw [hdone res]
    exact rowStartTags_table res (by omega) hplain
  · simpa [tableRowsFrom, String.join] using hdone []

/-- C7 at a response of two Promotions without markup in their values: the
display opens three rows, the row of the table head and one row per element. -/
theorem C7_search_renders_table_witness :
    (∀ promotion ∈ [promotionSeven, promotionWithId], cellsPlain promotion = true)
      ∧ [promotionSeven, promotionWithId].length < 2 ^ 32
      ∧ rowStartTags (search_done [promotionSeven, promotionWithId] filledState).state.search_results
          = 3 :=
  ⟨by decide, by decide,
    (C7_search_renders_table [promotionSeven, promotionWithId] filledState 0
      "" "" "" "" "" "" "" true true).2.2.2.2.2.2.2.2.2.2.1 (by decide) (by decide)⟩

/-! ## Clearing and deleting -/

/-- C8: for every form state, clearing the form and then reading the entity as
the Create and Update handlers do gives a payload whose name, description,
products_type, promotion_code, start_date and end_date are the empty string and
whose require_code and is_active are `false`. -/
theorem C8_clear_then_read (st : State) :
    (clear_form_data st).form = emptyForm
      ∧ (create_click (clear_form_data st)).2.data = RequestData.json
          { name := "", description := "", products_type := "", promotion_code := "",
            require_code := false, start_date := "", end_date := "", is_active := false }
      ∧ (update_click (clear_form_data st)).2.data = RequestData.json
          { name := "", description := "", products_type := "", promotion_code := "",
            require_code := false, start_date := "", end_date := "", is_active := false }
      ∧ (clear_form_data st).search_results = st.search_results := by
  refine ⟨rfl, ?_, ?_, rfl⟩
  · simp [create_click, formPayload, clear_form_data, valSet]
  · simp [update_click, formPayload, clear_form_data, valSet]

/-- C10: for every state, the success handler of Delete returns with all nine
form fields empty, the status message `Promotion has been Deleted!` and the
results display untouched, and it submits exactly one request, the one of the
Search click handler run on the cleared form: `GET /api/promotions?` with an
empty query string and an empty body. -/
theorem C10_delete_done (st : State) :
    delete_done st =
        (Outcome.returned
          { form := emptyForm
            flash_message := "Promotion has been Deleted!"
            search_results := st.search_results },
         [{ type := "GET", url := "/api/promotions?", contentType := "application/json",
            data := RequestData.empty }])
      ∧ (delete_done st).2 = [(search_click (clear_form_data st)).2]
      ∧ (delete_done st).2.length = 1
      ∧ buildQueryString emptyForm.promotion_name emptyForm.promotion_products_type
          emptyForm.promotion_require_code emptyForm.promotion_start_date
          emptyForm.promotion_end_date = "" := by
  have hq : buildQueryString "" "" "" "" "" = "" := by decide
  refine ⟨?_, rfl, rfl, by decide⟩
  simp [delete_done, search_click, clear_form_data, valSet, flash_message, appended, hq,
    emptyForm]

end Promotions
